import Mathlib

/-!
Shallow embedding of the text-extraction web application (src/app.py).

Numbers that Python handles as floats are modelled as exact rationals (ℚ);
pixel dimensions produced by PIL are natural numbers.  Python's truthiness
tests on strings and optional values, its `int()` truncation toward zero,
and its `str.strip()` are embedded explicitly (`pyTruthy`, `pytrunc`,
`pystrip`).  The Streamlit user interface and the pdfplumber library are
external collaborators: their observable behaviour is captured by an
`Event` trace and by abstract per-page extraction functions, while all the
logic of app.py itself (coordinate scaling, resize arithmetic, page loop,
control flow of `main`) is translated directly from the source.
-/

/-- Bounding box (x0, y0, x1, y1) in either coordinate space. -/
abbrev Bbox : Type := ℚ × ℚ × ℚ × ℚ

/-- Dimension pair (width, height). -/
abbrev Dims : Type := ℚ × ℚ

/-- Python truthiness of an optional string: `if text:` is false for `None`
and for the empty string. -/
def pyTruthy : Option String → Bool
  | none => false
  | some t => t ≠ ""

/-- Python `int()` applied to a rational: truncation toward zero. -/
def pytrunc (q : ℚ) : ℤ :=
  if 0 ≤ q then ⌊q⌋ else -⌊-q⌋

/-- Characters removed by Python `str.strip()` with no argument. -/
def pySpace (c : Char) : Bool :=
  c = ' ' || c = '\t' || c = '\n' || c = '\r' || c = '\x0b' || c = '\x0c'

/-- Python `str.strip()`: drop whitespace from both ends. -/
def pystrip (s : String) : String :=
  String.mk (((s.toList.dropWhile pySpace).reverse.dropWhile pySpace).reverse)

/-- One page of an open PDF document: its point-unit dimensions and the
text that pdfplumber's `within_bbox(...).extract_text()` yields for a given
point-space bounding box (`none` models a `None` return). -/
structure Page where
  width : ℚ
  height : ℚ
  textIn : Bbox → Option String

/-- A parsed PDF document: the ordered sequence of its pages (pdf.pages). -/
abbrev Pdf : Type := List Page

/-- Embedding of app.py line 33: scale_factor = min(max_width / img_pil.width,
max_height / img_pil.height), where the native image dimensions are the
positive integers w and h. -/
def scale_factor (max_width max_height : ℚ) (w h : ℕ) : ℚ :=
  min (max_width / w) (max_height / h)

/-- Embedding of app.py line 34: new_width = int(img_pil.width * scale_factor). -/
def new_width (max_width max_height : ℚ) (w h : ℕ) : ℤ :=
  pytrunc ((w : ℚ) * scale_factor max_width max_height w h)

/-- Embedding of app.py line 35: new_height = int(img_pil.height * scale_factor). -/
def new_height (max_width max_height : ℚ) (w h : ℕ) : ℤ :=
  pytrunc ((h : ℚ) * scale_factor max_width max_height w h)

/-- The dimensions part of extract_page_image (app.py lines 33-37): the
resized canvas dimensions paired with the page's point dimensions. -/
def extract_page_image_dims (max_width max_height : ℚ) (w h : ℕ)
    (page_w page_h : ℚ) : (ℤ × ℤ) × Dims :=
  ((new_width max_width max_height w h, new_height max_width max_height w h),
   (page_w, page_h))

/-- Embedding of scale_bbox_to_pdf (app.py lines 43-52). -/
def scale_bbox_to_pdf (bbox : Bbox) (canvas_dims pdf_dims : Dims) : Bbox :=
  let canvas_width := canvas_dims.1
  let canvas_height := canvas_dims.2
  let pdf_width := pdf_dims.1
  let pdf_height := pdf_dims.2
  let scale_x := pdf_width / canvas_width
  let scale_y := pdf_height / canvas_height
  match bbox with
  | (x0, y0, x1, y1) => (x0 * scale_x, y0 * scale_y, x1 * scale_x, y1 * scale_y)

/-- The per-page chunk appended by app.py line 61:
f"\n\n--- Page {page_number} ---\n{text}". -/
def pageChunk (page_number : ℕ) (text : String) : String :=
  "\n\n--- Page " ++ toString page_number ++ " ---\n" ++ text

/-- The loop body of extract_text_from_pdf (app.py lines 57-62): all_text
is the accumulator, page_number the 1-based counter of enumerate. -/
def extractLoop (scaled_bbox : Bbox) : String → ℕ → List Page → String
  | all_text, _, [] => all_text
  | all_text, page_number, page :: rest =>
      let text := page.textIn scaled_bbox
      if pyTruthy text then
        extractLoop scaled_bbox (all_text ++ pageChunk page_number (text.getD ""))
          (page_number + 1) rest
      else
        extractLoop scaled_bbox all_text (page_number + 1) rest

/-- Embedding of extract_text_from_pdf (app.py lines 55-62). -/
def extract_text_from_pdf (pdf : Pdf) (scaled_bbox : Bbox) : String :=
  extractLoop scaled_bbox "" 1 pdf

/-- Modelled from the spec (section 4.4): visit the extraction results in
page order with display numbering starting at start, skip every page that
yields no text, and for a page that yields text append the separator
header followed by that page's text; the results are concatenated into a
single string.  This is the spec-side definition compared against the
code-side extract_text_from_pdf. -/
def extractSpec : ℕ → List (Option String) → String
  | _, [] => ""
  | n, r :: rest =>
      match r with
      | some t =>
          if t = "" then extractSpec (n + 1) rest
          else "\n\n--- Page " ++ toString n ++ " ---\n" ++ t ++ extractSpec (n + 1) rest
      | none => extractSpec (n + 1) rest

/-- Observable events of one run of main: component invocations and
Streamlit user-interface calls. -/
inductive Event where
  | rasterizeCall
  | extractCall
  | uiError (msg : String)
  | uiWarn (msg : String)
  | uiInfo (msg : String)
  | uiShowText (text : String)
  | uiDownload (fileName mime data : String)
  deriving DecidableEq, Repr

/-- Embedding of load_pdf (app.py lines 15-22).  pdfplumberOpen models
pdfplumber.open: `none` means the library raised an exception, in which
case load_pdf shows an error message and returns None. -/
def load_pdf {F : Type} (pdfplumberOpen : F → Option Pdf) (pdf_file : F) :
    Option Pdf × List Event :=
  match pdfplumberOpen pdf_file with
  | some pdf => (some pdf, [])
  | none => (none, [Event.uiError "Failed to load PDF"])

/-- Embedding of app.py lines 113-123: display the extracted text and offer
it for download when it is non-empty after stripping, otherwise show a
warning. -/
def display_extraction_result (extracted_text : String) : List Event :=
  if pystrip extracted_text ≠ "" then
    [Event.uiShowText extracted_text,
     Event.uiDownload "extracted_text.txt" "text/plain" extracted_text]
  else
    [Event.uiWarn "No text found in the selected area across all pages."]

/-- Embedding of the control flow of main (app.py lines 66-131) as an event
trace.  upload is the uploaded file if any; renderPage abstracts the
rendering part of extract_page_image (its None branch models a rendering
exception), returning the canvas and pdf dimension pairs; chosenPage is
the 1-based slider value; drawn is the last canvas rectangle as
(left, top, width, height) if one was drawn. -/
def main_trace {F : Type} (upload : Option F)
    (pdfplumberOpen : F → Option Pdf)
    (renderPage : Pdf → ℕ → Option (Dims × Dims))
    (chosenPage : ℕ)
    (drawn : Option (ℚ × ℚ × ℚ × ℚ)) : List Event :=
  match upload with
  | none => [Event.uiInfo "Upload a PDF file to start extracting text."]
  | some f =>
    match load_pdf pdfplumberOpen f with
    | (none, evs) => evs ++ [Event.uiError "Invalid PDF file. Please try again."]
    | (some pdf, evs) =>
      evs ++ (Event.rasterizeCall ::
        match renderPage pdf (chosenPage - 1) with
        | none => [Event.uiError "Failed to process the selected page."]
        | some (canvas_dims, pdf_dims) =>
          match drawn with
          | none => [Event.uiInfo "Draw a bounding box to select text."]
          | some (left, top, w, h) =>
            let bbox := (left, top, left + w, top + h)
            let scaled_bbox := scale_bbox_to_pdf bbox canvas_dims pdf_dims
            Event.extractCall ::
              display_extraction_result (extract_text_from_pdf pdf scaled_bbox))

/-! ## Helper lemmas -/

lemma strAppend_assoc (a b c : String) : a ++ b ++ c = a ++ (b ++ c) := by
  rcases a with ⟨la⟩; rcases b with ⟨lb⟩; rcases c with ⟨lc⟩
  show String.mk (la ++ lb ++ lc) = String.mk (la ++ (lb ++ lc))
  rw [List.append_assoc]

lemma extractLoop_eq (scaled_bbox : Bbox) (acc : String) (n : ℕ) (pages : List Page) :
    extractLoop scaled_bbox acc n pages =
      acc ++ extractSpec n (pages.map fun p => p.textIn scaled_bbox) := by
  induction pages generalizing acc n with
  | nil => simp [extractLoop, extractSpec, String.append_empty]
  | cons page rest ih =>
      cases htext : page.textIn scaled_bbox with
      | none => simp [extractLoop, extractSpec, htext, pyTruthy, ih]
      | some t =>
          by_cases ht : t = ""
          · simp [extractLoop, extractSpec, htext, pyTruthy, ht, ih]
          · simp [extractLoop, extractSpec, htext, pyTruthy, ht, ih, pageChunk,
              strAppend_assoc]

lemma extractSpec_shape (n : ℕ) (results : List (Option String)) :
    extractSpec n results = "" ∨
      ∃ rest, extractSpec n results = "\n\n--- Page " ++ rest := by
  induction results generalizing n with
  | nil => left; rfl
  | cons r rest ih =>
      cases r with
      | none => simpa [extractSpec] using ih (n + 1)
      | some t =>
          by_cases ht : t = ""
          · simpa [extractSpec, ht] using ih (n + 1)
          · right
            exact ⟨toString n ++ (" ---\n" ++ (t ++ extractSpec (n + 1) rest)),
              by simp [extractSpec, ht, strAppend_assoc]⟩

lemma extractSpec_all_falsy (n : ℕ) (results : List (Option String))
    (h : ∀ r ∈ results, pyTruthy r = false) : extractSpec n results = "" := by
  induction results generalizing n with
  | nil => rfl
  | cons r rest ih =>
      have hr := h r (by simp)
      cases r with
      | none => simpa [extractSpec] using ih (n + 1) (fun x hx => h x (by simp [hx]))
      | some t =>
          have ht : t = "" := by simpa [pyTruthy] using hr
          simpa [extractSpec, ht] using ih (n + 1) (fun x hx => h x (by simp [hx]))

/-! ## Claim theorems -/

/-- C2: extract_text_from_pdf visits the pages in order with display
numbering starting at 1, skips entirely every page that yields no text,
and for every page that yields text appends the separator header
followed by that page's extracted text, returning the single
concatenated string — that is, it refines the spec-side extractSpec. -/
theorem extract_text_from_pdf_refines_spec (pdf : Pdf) (scaled_bbox : Bbox) :
    extract_text_from_pdf pdf scaled_bbox =
      extractSpec 1 (pdf.map fun p => p.textIn scaled_bbox) := by
  have h := extractLoop_eq scaled_bbox "" 1 pdf
  rw [extract_text_from_pdf] at *
  rw [h, String.empty_append]

/-- C10: the string returned by extract_text_from_pdf is either empty
(in particular it is empty for a zero-page document and when no page
yields text) or begins with the characters of a page separator header,
so every non-empty result starts with two newline characters. -/
theorem extract_text_empty_or_page_header :
    (∀ (pdf : Pdf) (scaled_bbox : Bbox),
      extract_text_from_pdf pdf scaled_bbox = "" ∨
        ∃ rest, extract_text_from_pdf pdf scaled_bbox = "\n\n--- Page " ++ rest) ∧
    (∀ scaled_bbox : Bbox, extract_text_from_pdf [] scaled_bbox = "") ∧
    (∀ (pdf : Pdf) (scaled_bbox : Bbox),
      (∀ p ∈ pdf, pyTruthy (p.textIn scaled_bbox) = false) →
        extract_text_from_pdf pdf scaled_bbox = "") := by
  refine ⟨fun pdf bbox => ?_, fun bbox => rfl, fun pdf bbox h => ?_⟩
  · rw [extract_text_from_pdf, extractLoop_eq, String.empty_append]
    exact extractSpec_shape 1 _
  · rw [extract_text_from_pdf, extractLoop_eq, String.empty_append]
    exact extractSpec_all_falsy 1 _ (by simpa using h)

/-- Witness for C10: concrete instances of the theorem, at the empty
document and at a one-page document whose page yields no text. -/
theorem extract_text_empty_or_page_header_witness :
    extract_text_from_pdf [] (0, 0, 1, 1) = "" ∧
    extract_text_from_pdf [⟨612, 792, fun _ => none⟩] (0, 0, 1, 1) = "" :=
  ⟨extract_text_empty_or_page_header.2.1 (0, 0, 1, 1),
   extract_text_empty_or_page_header.2.2 [⟨612, 792, fun _ => none⟩] (0, 0, 1, 1)
     (by intro p hp; simp only [List.mem_singleton] at hp; subst hp; rfl)⟩

/-- C6: an extraction result that is empty after stripping whitespace is
the normal no-text outcome: the caller shows a warning notice, while a
non-empty trimmed result is displayed and offered for download; and a
warning event differs from every error event, so the two outcomes are
distinguishable. -/
theorem no_text_outcome_is_warning (extracted_text : String) :
    display_extraction_result extracted_text =
      (if pystrip extracted_text = "" then
        [Event.uiWarn "No text found in the selected area across all pages."]
      else
        [Event.uiShowText extracted_text,
         Event.uiDownload "extracted_text.txt" "text/plain" extracted_text]) ∧
    (∀ msg, Event.uiWarn "No text found in the selected area across all pages." ≠
      Event.uiError msg) := by
  constructor
  · by_cases h : pystrip extracted_text = "" <;> simp [display_extraction_result, h]
  · intro msg
    simp

/-- Witness for C6: a whitespace-only extraction result yields the warning
event, a non-empty one yields the display and download events. -/
theorem no_text_outcome_is_warning_witness :
    display_extraction_result " \n " =
      [Event.uiWarn "No text found in the selected area across all pages."] ∧
    display_extraction_result "hello" =
      [Event.uiShowText "hello",
       Event.uiDownload "extracted_text.txt" "text/plain" "hello"] := by
  constructor
  · rw [(no_text_outcome_is_warning " \n ").1]
    rfl
  · rw [(no_text_outcome_is_warning "hello").1]
    rfl

/-- C7: when the uploaded byte stream is not a parseable PDF, load_pdf
shows a user-facing error message and returns the failure value None, and
main performs no rasterizer call and no extractor call for that upload. -/
theorem load_failure_skips_pipeline {F : Type} (pdf_file : F)
    (pdfplumberOpen : F → Option Pdf)
    (renderPage : Pdf → ℕ → Option (Dims × Dims))
    (chosenPage : ℕ) (drawn : Option (ℚ × ℚ × ℚ × ℚ))
    (h : pdfplumberOpen pdf_file = none) :
    (load_pdf pdfplumberOpen pdf_file).1 = none ∧
    Event.uiError "Failed to load PDF" ∈ (load_pdf pdfplumberOpen pdf_file).2 ∧
    Event.rasterizeCall ∉
      main_trace (some pdf_file) pdfplumberOpen renderPage chosenPage drawn ∧
    Event.extractCall ∉
      main_trace (some pdf_file) pdfplumberOpen renderPage chosenPage drawn := by
  simp [load_pdf, main_trace, h]

/-- Witness for C7: a concrete upload on which the PDF library fails. -/
theorem load_failure_skips_pipeline_witness :
    (fun _ : ℕ => (none : Option Pdf)) 0 = none ∧
    ((load_pdf (fun _ : ℕ => (none : Option Pdf)) 0).1 = none ∧
     Event.uiError "Failed to load PDF" ∈
       (load_pdf (fun _ : ℕ => (none : Option Pdf)) 0).2 ∧
     Event.rasterizeCall ∉
       main_trace (some 0) (fun _ : ℕ => (none : Option Pdf)) (fun _ _ => none) 1 none ∧
     Event.extractCall ∉
       main_trace (some 0) (fun _ : ℕ => (none : Option Pdf)) (fun _ _ => none) 1 none) :=
  ⟨rfl, load_failure_skips_pipeline 0 (fun _ => none) (fun _ _ => none) 1 none rfl⟩

lemma pytrunc_eq_floor {q : ℚ} (h : 0 ≤ q) : pytrunc q = ⌊q⌋ := if_pos h

lemma scale_factor_nonneg {max_width max_height : ℚ} (hmw : 0 ≤ max_width)
    (hmh : 0 ≤ max_height) (w h : ℕ) : 0 ≤ scale_factor max_width max_height w h := by
  unfold scale_factor
  apply le_min <;> positivity

/-- C1: scale_bbox_to_pdf scales each coordinate by its own axis's scale
factor, with scaleX = pdf_width / canvas_width and
scaleY = pdf_height / canvas_height, returning exactly
(x0 scaleX, y0 scaleY, x1 scaleX, y1 scaleY); it is a pure function. -/
theorem scale_bbox_to_pdf_spec
    (x0 y0 x1 y1 canvas_width canvas_height pdf_width pdf_height : ℚ)
    (hcw : canvas_width ≠ 0) (hch : canvas_height ≠ 0) :
    scale_bbox_to_pdf (x0, y0, x1, y1) (canvas_width, canvas_height)
        (pdf_width, pdf_height) =
      (x0 * (pdf_width / canvas_width), y0 * (pdf_height / canvas_height),
       x1 * (pdf_width / canvas_width), y1 * (pdf_height / canvas_height)) := rfl

/-- Witness for C1, at the concrete example of the spec: a 612×792-point
page rendered at 619×800 pixels and the drawn rectangle (100,100)-(300,200). -/
theorem scale_bbox_to_pdf_spec_witness :
    (619 : ℚ) ≠ 0 ∧ (800 : ℚ) ≠ 0 ∧
    scale_bbox_to_pdf (100, 100, 300, 200) (619, 800) (612, 792) =
      (100 * ((612 : ℚ) / 619), 100 * ((792 : ℚ) / 800),
       300 * ((612 : ℚ) / 619), 200 * ((792 : ℚ) / 800)) :=
  ⟨by norm_num, by norm_num,
   scale_bbox_to_pdf_spec 100 100 300 200 619 800 612 792 (by norm_num) (by norm_num)⟩

/-- C4: applying scale_bbox_to_pdf and then applying it again with the two
dimension pairs swapped reconstructs the original rectangle exactly, in
exact rational arithmetic. -/
theorem scale_bbox_round_trip (x0 y0 x1 y1 cw ch pw ph : ℚ)
    (hcw : cw ≠ 0) (hch : ch ≠ 0) (hpw : pw ≠ 0) (hph : ph ≠ 0) :
    scale_bbox_to_pdf (scale_bbox_to_pdf (x0, y0, x1, y1) (cw, ch) (pw, ph))
      (pw, ph) (cw, ch) = (x0, y0, x1, y1) := by
  simp only [scale_bbox_to_pdf, Prod.mk.injEq]
  refine ⟨?_, ?_, ?_, ?_⟩ <;> field_simp

/-- Witness for C4: the round trip at the concrete rectangle
(100,100,300,200) with canvas 619×800 and page 612×792. -/
theorem scale_bbox_round_trip_witness :
    (619 : ℚ) ≠ 0 ∧ (800 : ℚ) ≠ 0 ∧ (612 : ℚ) ≠ 0 ∧ (792 : ℚ) ≠ 0 ∧
    scale_bbox_to_pdf (scale_bbox_to_pdf (100, 100, 300, 200) (619, 800) (612, 792))
      (612, 792) (619, 800) = (100, 100, 300, 200) :=
  ⟨by norm_num, by norm_num, by norm_num, by norm_num,
   scale_bbox_round_trip 100 100 300 200 619 800 612 792
     (by norm_num) (by norm_num) (by norm_num) (by norm_num)⟩

/-- C9: scale_bbox_to_pdf preserves rectangle normalization: with positive
dimensions, x0 ≤ x1 and y0 ≤ y1 are preserved, and a degenerate input
axis stays degenerate in the output. -/
theorem scale_bbox_preserves_normalization (x0 y0 x1 y1 cw ch pw ph : ℚ)
    (hcw : 0 < cw) (hch : 0 < ch) (hpw : 0 < pw) (hph : 0 < ph)
    (hx : x0 ≤ x1) (hy : y0 ≤ y1) :
    ∃ px0 py0 px1 py1,
      scale_bbox_to_pdf (x0, y0, x1, y1) (cw, ch) (pw, ph) = (px0, py0, px1, py1) ∧
      px0 ≤ px1 ∧ py0 ≤ py1 ∧ (x0 = x1 → px0 = px1) ∧ (y0 = y1 → py0 = py1) := by
  have hsx : 0 ≤ pw / cw := by positivity
  have hsy : 0 ≤ ph / ch := by positivity
  refine ⟨x0 * (pw / cw), y0 * (ph / ch), x1 * (pw / cw), y1 * (ph / ch), rfl,
    mul_le_mul_of_nonneg_right hx hsx, mul_le_mul_of_nonneg_right hy hsy,
    fun hdeg => by rw [hdeg], fun hdeg => by rw [hdeg]⟩

/-- Witness for C9: a rectangle with a degenerate vertical axis, mapped
between canvas 619×800 and page 612×792. -/
theorem scale_bbox_preserves_normalization_witness :
    (0 : ℚ) < 619 ∧ (0 : ℚ) < 800 ∧ (0 : ℚ) < 612 ∧ (0 : ℚ) < 792 ∧
    (1 : ℚ) ≤ 3 ∧ (2 : ℚ) ≤ 2 ∧
    ∃ px0 py0 px1 py1,
      scale_bbox_to_pdf (1, 2, 3, 2) (619, 800) (612, 792) = (px0, py0, px1, py1) ∧
      px0 ≤ px1 ∧ py0 ≤ py1 ∧ ((1 : ℚ) = 3 → px0 = px1) ∧ ((2 : ℚ) = 2 → py0 = py1) :=
  ⟨by norm_num, by norm_num, by norm_num, by norm_num, by norm_num, by norm_num,
   scale_bbox_preserves_normalization 1 2 3 2 619 800 612 792
     (by norm_num) (by norm_num) (by norm_num) (by norm_num) (by norm_num) (by norm_num)⟩

/-- C3 counterexample: at native 612×792 pixels with bounds 800×1000 the
code's int() truncation yields width 772, while rounding nativeW times the
scale factor yields 773, so the output width is not round(nativeW * s). -/
theorem raster_width_truncates_not_rounds :
    new_width 800 1000 612 792 = 772 ∧
    round ((612 : ℚ) * scale_factor 800 1000 612 792) = 773 ∧
    new_width 800 1000 612 792 ≠ round ((612 : ℚ) * scale_factor 800 1000 612 792) := by
  have hsf : scale_factor 800 1000 612 792 = 125 / 99 := by
    unfold scale_factor
    rw [min_def]
    norm_num
  have hmul : (((612 : ℕ) : ℚ)) * scale_factor 800 1000 612 792 = 8500 / 11 := by
    rw [hsf]; norm_num
  have hw : new_width 800 1000 612 792 = 772 := by
    rw [new_width, pytrunc_eq_floor (by rw [hmul]; norm_num), hmul]
    rw [Int.floor_eq_iff]
    norm_num
  have hr : round ((612 : ℚ) * scale_factor 800 1000 612 792) = 773 := by
    have hc : ((612 : ℚ)) = (((612 : ℕ) : ℚ)) := by norm_num
    rw [hc, hmul, round_eq, Int.floor_eq_iff]
    norm_num
  exact ⟨hw, hr, by rw [hw, hr]; norm_num⟩

/-- C3 (amended): the Page Rasterizer computes the single scale factor
s = min(maxWidth / nativeW, maxHeight / nativeH) and produces output
dimensions int(nativeW * s) by int(nativeH * s), truncated toward zero
(the floor, for these non-negative values) rather than rounded, applying
the same s to both axes with no special-case skip or clamp when s ≥ 1. -/
theorem raster_dims_floor_of_uniform_scale (max_width max_height : ℚ) (w h : ℕ)
    (hw : 0 < w) (hh : 0 < h) (hmw : 0 < max_width) (hmh : 0 < max_height) :
    new_width max_width max_height w h =
      ⌊(w : ℚ) * min (max_width / w) (max_height / h)⌋ ∧
    new_height max_width max_height w h =
      ⌊(h : ℚ) * min (max_width / w) (max_height / h)⌋ := by
  have hs := scale_factor_nonneg hmw.le hmh.le w h
  constructor
  · rw [new_width, pytrunc_eq_floor (mul_nonneg (Nat.cast_nonneg w) hs)]
    rfl
  · rw [new_height, pytrunc_eq_floor (mul_nonneg (Nat.cast_nonneg h) hs)]
    rfl

/-- Witness for the amended C3, at a 100×100 page upscaled by s = 8 (the
s ≥ 1 case is not clamped: the output is 800×800). -/
theorem raster_dims_floor_of_uniform_scale_witness :
    0 < 100 ∧ 0 < 100 ∧ (0 : ℚ) < 800 ∧ (0 : ℚ) < 1000 ∧
    (new_width 800 1000 100 100 =
      ⌊(100 : ℚ) * min ((800 : ℚ) / 100) ((1000 : ℚ) / 100)⌋ ∧
     new_height 800 1000 100 100 =
      ⌊(100 : ℚ) * min ((800 : ℚ) / 100) ((1000 : ℚ) / 100)⌋) := by
  refine ⟨by norm_num, by norm_num, by norm_num, by norm_num, ?_⟩
  have h := raster_dims_floor_of_uniform_scale 800 1000 100 100
    (by norm_num) (by norm_num) (by norm_num) (by norm_num)
  simpa using h

/-- C5: the rasterizer's output preserves the source aspect ratio within a
rounding tolerance of one pixel per axis: adding a fractional part less
than one to each output dimension recovers the exact source ratio, because
a single scale factor is applied uniformly to both axes. -/
theorem raster_aspect_ratio_preserved (max_width max_height : ℚ) (w h : ℕ)
    (hw : 0 < w) (hh : 0 < h) (hmw : 0 < max_width) (hmh : 0 < max_height) :
    ∃ a b : ℚ, 0 ≤ a ∧ a < 1 ∧ 0 ≤ b ∧ b < 1 ∧
      ((new_width max_width max_height w h : ℚ) + a) * (h : ℚ) =
        ((new_height max_width max_height w h : ℚ) + b) * (w : ℚ) := by
  have hs := scale_factor_nonneg hmw.le hmh.le w h
  have hwnn : (0 : ℚ) ≤ (w : ℚ) * scale_factor max_width max_height w h :=
    mul_nonneg (Nat.cast_nonneg w) hs
  have hhnn : (0 : ℚ) ≤ (h : ℚ) * scale_factor max_width max_height w h :=
    mul_nonneg (Nat.cast_nonneg h) hs
  refine ⟨Int.fract ((w : ℚ) * scale_factor max_width max_height w h),
    Int.fract ((h : ℚ) * scale_factor max_width max_height w h),
    Int.fract_nonneg _, Int.fract_lt_one _, Int.fract_nonneg _, Int.fract_lt_one _, ?_⟩
  rw [new_width, new_height, pytrunc_eq_floor hwnn, pytrunc_eq_floor hhnn,
    Int.floor_add_fract, Int.floor_add_fract]
  ring

/-- Witness for C5 at the concrete page 612×792 with bounds 800×1000. -/
theorem raster_aspect_ratio_preserved_witness :
    0 < 612 ∧ 0 < 792 ∧ (0 : ℚ) < 800 ∧ (0 : ℚ) < 1000 ∧
    ∃ a b : ℚ, 0 ≤ a ∧ a < 1 ∧ 0 ≤ b ∧ b < 1 ∧
      ((new_width 800 1000 612 792 : ℚ) + a) * ((792 : ℕ) : ℚ) =
        ((new_height 800 1000 612 792 : ℚ) + b) * ((612 : ℕ) : ℚ) :=
  ⟨by norm_num, by norm_num, by norm_num, by norm_num,
   raster_aspect_ratio_preserved 800 1000 612 792
     (by norm_num) (by norm_num) (by norm_num) (by norm_num)⟩

/-- C8: the output pixel dimensions (integers by construction) are each at
most the corresponding configured maximum. -/
theorem raster_dims_within_bounds (max_width max_height : ℚ) (w h : ℕ)
    (hw : 0 < w) (hh : 0 < h) (hmw : 0 < max_width) (hmh : 0 < max_height) :
    ((new_width max_width max_height w h : ℚ) ≤ max_width) ∧
    ((new_height max_width max_height w h : ℚ) ≤ max_height) := by
  have hs := scale_factor_nonneg hmw.le hmh.le w h
  have hwq : (0 : ℚ) < (w : ℚ) := by exact_mod_cast hw
  have hhq : (0 : ℚ) < (h : ℚ) := by exact_mod_cast hh
  constructor
  · have h1 : (w : ℚ) * scale_factor max_width max_height w h ≤ max_width := by
      have h2 : scale_factor max_width max_height w h ≤ max_width / (w : ℚ) :=
        min_le_left _ _
      calc (w : ℚ) * scale_factor max_width max_height w h
          ≤ (w : ℚ) * (max_width / (w : ℚ)) := mul_le_mul_of_nonneg_left h2 hwq.le
        _ = max_width := by field_simp
    rw [new_width, pytrunc_eq_floor (mul_nonneg hwq.le hs)]
    exact le_trans (Int.floor_le _) h1
  · have h1 : (h : ℚ) * scale_factor max_width max_height w h ≤ max_height := by
      have h2 : scale_factor max_width max_height w h ≤ max_height / (h : ℚ) :=
        min_le_right _ _
      calc (h : ℚ) * scale_factor max_width max_height w h
          ≤ (h : ℚ) * (max_height / (h : ℚ)) := mul_le_mul_of_nonneg_left h2 hhq.le
        _ = max_height := by field_simp
    rw [new_height, pytrunc_eq_floor (mul_nonneg hhq.le hs)]
    exact le_trans (Int.floor_le _) h1

/-- Witness for C8 at the concrete page 612×792 with the default bounds
800×1000. -/
theorem raster_dims_within_bounds_witness :
    0 < 612 ∧ 0 < 792 ∧ (0 : ℚ) < 800 ∧ (0 : ℚ) < 1000 ∧
    ((new_width 800 1000 612 792 : ℚ) ≤ 800) ∧
    ((new_height 800 1000 612 792 : ℚ) ≤ 1000) :=
  ⟨by norm_num, by norm_num, by norm_num, by norm_num,
   (raster_dims_within_bounds 800 1000 612 792
     (by norm_num) (by norm_num) (by norm_num) (by norm_num)).1,
   (raster_dims_within_bounds 800 1000 612 792
     (by norm_num) (by norm_num) (by norm_num) (by norm_num)).2⟩
